import Mathlib

/-!
Shallow embedding of the DAC5578 driver crate (src/src/lib.rs) and proofs
about its command encoding, transaction dispatch and error propagation.

Machine integers are modelled as Nat with explicit modular arithmetic where
the source performs u16/u8 conversions.  The I2C transport is modelled as a
pure responder; every public operation returns the list of bus transactions
it issues together with its Rust result.  A Rust computation that may abort
the process (panic) is modelled by RustOutcome.
-/

namespace Dac5578

/-- Outcome of a source-language computation that either returns a value or
aborts the process instead of returning. -/
inductive RustOutcome (α : Type) where
  | ok : α → RustOutcome α
  | aborted : RustOutcome α
deriving DecidableEq

/-- enum Address: bus address selected by the ADDR0 pin strap. -/
inductive Address where
  | PinLow
  | PinHigh
  | PinFloat
deriving DecidableEq, Fintype

/-- The repr(u8) discriminant of Address: PinLow = 0x48, PinHigh = 0x4a,
PinFloat = 0x4c. -/
def Address.toByte : Address → Nat
  | .PinLow => 0x48
  | .PinHigh => 0x4a
  | .PinFloat => 0x4c

/-- enum Channel: eight output channels plus the broadcast value All. -/
inductive Channel where
  | A
  | B
  | C
  | D
  | E
  | F
  | G
  | H
  | All
deriving DecidableEq, Fintype

/-- The repr(u8) discriminant of Channel: A..H are 0..7, All = 0xf
(the source writes `channel as u8`). -/
def Channel.toByte : Channel → Nat
  | .A => 0
  | .B => 1
  | .C => 2
  | .D => 3
  | .E => 4
  | .F => 5
  | .G => 6
  | .H => 7
  | .All => 0xf

/-- impl From char u8 for Channel: indices 0..7 map to A..H, every other
index hits the wildcard arm which aborts the process. -/
def Channel.fromIndex : Nat → RustOutcome Channel
  | 0 => .ok .A
  | 1 => .ok .B
  | 2 => .ok .C
  | 3 => .ok .D
  | 4 => .ok .E
  | 5 => .ok .F
  | 6 => .ok .G
  | 7 => .ok .H
  | _ => .aborted

/-- enum WriteCommandType with its repr(u8) discriminants. -/
inductive WriteCommandType where
  | WriteToChannel
  | UpdateChannel
  | WriteToChannelAndUpdate
  | WriteToChannelAndUpdateAll
deriving DecidableEq, Fintype

/-- Wire value of each write command family. -/
def WriteCommandType.toByte : WriteCommandType → Nat
  | .WriteToChannel => 0x00
  | .UpdateChannel => 0x10
  | .WriteToChannelAndUpdate => 0x30
  | .WriteToChannelAndUpdateAll => 0x20

/-- enum ReadCommandType with its repr(u8) discriminant. -/
inductive ReadCommandType where
  | ReadFromChannel
deriving DecidableEq

/-- Wire value of the read command family. -/
def ReadCommandType.toByte : ReadCommandType → Nat
  | .ReadFromChannel => 0x10

/-- enum ResetMode: the three defined reset modes with their repr(u8)
discriminants. -/
inductive ResetMode where
  | Por
  | SetHighSpeed
  | MaintainHighSpeed
deriving DecidableEq, Fintype

/-- Wire value of each reset mode. -/
def ResetMode.toByte : ResetMode → Nat
  | .Por => 0b00
  | .SetHighSpeed => 0b01
  | .MaintainHighSpeed => 0b10

/-- u16 to_be_bytes: the big-endian byte pair of a 16-bit value. -/
def u16_to_be_bytes (value : Nat) : Nat × Nat :=
  (value / 256 % 256, value % 256)

/-- u16 from_be_bytes: big-endian interpretation of a byte pair. -/
def u16_from_be_bytes (bytes : Nat × Nat) : Nat :=
  bytes.1 * 256 + bytes.2

/-- encode_write_command: command type, channel selector and data packed
into a three byte command. -/
def encode_write_command (command : WriteCommandType) (access : Nat) (value : Nat) : List Nat :=
  let value_bytes := u16_to_be_bytes value
  [command.toByte ||| access, value_bytes.1, value_bytes.2]

/-- encode_read_command: command type and channel selector packed into a
one byte command. -/
def encode_read_command (command : ReadCommandType) (access : Nat) : List Nat :=
  [command.toByte ||| access]

/-- A bus transaction as observed on the transport boundary: a plain write,
or a write followed by a read of readLen bytes. -/
inductive Transaction where
  | write (address : Nat) (bytes : List Nat)
  | writeRead (address : Nat) (bytes : List Nat) (readLen : Nat)
deriving DecidableEq

/-- The I2C transport collaborator, modelled as a pure responder: writeRes
answers a plain write, writeReadRes answers a write-then-read by producing
the two bytes it places in the caller's buffer.  The error type is generic,
as in the embedded-hal traits. -/
structure I2C (ε : Type) where
  writeRes : Nat → List Nat → Except ε Unit
  writeReadRes : Nat → List Nat → Except ε (Nat × Nat)

/-- struct DAC5578: owns the transport handle and the resolved address. -/
structure DAC5578 (ε : Type) where
  i2c : I2C ε
  address : Nat

/-- DAC5578::new: store the transport and the address discriminant. -/
def DAC5578.new {ε : Type} (i2c : I2C ε) (address : Address) : DAC5578 ε :=
  ⟨i2c, address.toByte⟩

/-- DAC5578::write: encode a WriteToChannel frame and issue one write. -/
def DAC5578.write {ε : Type} (d : DAC5578 ε) (channel : Channel) (data : Nat) :
    List Transaction × Except ε Unit :=
  let bytes := encode_write_command WriteCommandType.WriteToChannel channel.toByte data
  ([Transaction.write d.address bytes], d.i2c.writeRes d.address bytes)

/-- DAC5578::read: encode a ReadFromChannel request, issue one
write-then-read into a 2-byte buffer, decode big-endian. -/
def DAC5578.read {ε : Type} (d : DAC5578 ε) (channel : Channel) :
    List Transaction × Except ε Nat :=
  let bytes := encode_read_command ReadCommandType.ReadFromChannel channel.toByte
  ([Transaction.writeRead d.address bytes 2],
    match d.i2c.writeReadRes d.address bytes with
    | Except.error e => Except.error e
    | Except.ok response => Except.ok (u16_from_be_bytes response))

/-- DAC5578::update: encode an UpdateChannel frame and issue one write. -/
def DAC5578.update {ε : Type} (d : DAC5578 ε) (channel : Channel) (data : Nat) :
    List Transaction × Except ε Unit :=
  let bytes := encode_write_command WriteCommandType.UpdateChannel channel.toByte data
  ([Transaction.write d.address bytes], d.i2c.writeRes d.address bytes)

/-- DAC5578::write_and_update: encode a WriteToChannelAndUpdate frame and
issue one write. -/
def DAC5578.write_and_update {ε : Type} (d : DAC5578 ε) (channel : Channel) (data : Nat) :
    List Transaction × Except ε Unit :=
  let bytes := encode_write_command WriteCommandType.WriteToChannelAndUpdate channel.toByte data
  ([Transaction.write d.address bytes], d.i2c.writeRes d.address bytes)

/-- DAC5578::write_and_update_all: encode a WriteToChannelAndUpdateAll
frame and issue one write. -/
def DAC5578.write_and_update_all {ε : Type} (d : DAC5578 ε) (channel : Channel) (data : Nat) :
    List Transaction × Except ε Unit :=
  let bytes := encode_write_command WriteCommandType.WriteToChannelAndUpdateAll channel.toByte data
  ([Transaction.write d.address bytes], d.i2c.writeRes d.address bytes)

/-- DAC5578::reset: issue one write of the frame [0x70, mode, 0] to the
device's own address. -/
def DAC5578.reset {ε : Type} (d : DAC5578 ε) (mode : ResetMode) :
    List Transaction × Except ε Unit :=
  let bytes := [0x70, mode.toByte, 0]
  ([Transaction.write d.address bytes], d.i2c.writeRes d.address bytes)

/-- DAC5578::wake_up_all: issue one general-call write of [0x06] to the
broadcast address 0x00. -/
def DAC5578.wake_up_all {ε : Type} (d : DAC5578 ε) :
    List Transaction × Except ε Unit :=
  ([Transaction.write 0x00 [0x06]],
    match d.i2c.writeRes 0x00 [0x06] with
    | Except.error e => Except.error e
    | Except.ok _ => Except.ok ())

/-- DAC5578::reset_all: issue one general-call write of [0x09] to the
broadcast address 0x00. -/
def DAC5578.reset_all {ε : Type} (d : DAC5578 ε) :
    List Transaction × Except ε Unit :=
  ([Transaction.write 0x00 [0x09]],
    match d.i2c.writeRes 0x00 [0x09] with
    | Except.error e => Except.error e
    | Except.ok _ => Except.ok ())

/-- DAC5578::destroy: consume the driver, returning the transport handle. -/
def DAC5578.destroy {ε : Type} (d : DAC5578 ε) : I2C ε :=
  d.i2c

/-- A transport whose responses always succeed, for concrete scenarios. -/
def okTransport : I2C Unit :=
  ⟨fun _ _ => Except.ok (), fun _ _ => Except.ok (0, 0)⟩

/-- A transport that answers every write-then-read with bytes 0xAB, 0xCD. -/
def respondingTransport : I2C Unit :=
  ⟨fun _ _ => Except.ok (), fun _ _ => Except.ok (0xAB, 0xCD)⟩

/-- Claim C1, behavior of the source at the failing input: converting raw
index 9 to a Channel hits the wildcard arm of From for u8 and aborts the
process instead of returning a recoverable error value. -/
theorem channel_from_nine_aborts :
    Channel.fromIndex 9 = RustOutcome.aborted := rfl

/-- Claim C2, counterexample: write(A, 200) on a PinLow driver does not
issue the bytes [0x00, 200, 0x00] claimed by the spec scenario. -/
theorem write_a200_counterexample :
    ((DAC5578.new okTransport Address.PinLow).write Channel.A 200).1 ≠
      [Transaction.write 0x48 [0x00, 200, 0x00]] := by
  decide

/-- Claim C2, amended: write(A, 200) on a PinLow driver issues exactly one
transport write to bus address 0x48 whose bytes are [0x00, 0x00, 200]: the
data is a 16-bit big-endian payload, the source has no 8-bit resolution
configuration. -/
theorem write_a200_issues_be16_frame {ε : Type} (i2c : I2C ε) :
    ((DAC5578.new i2c Address.PinLow).write Channel.A 200).1 =
      [Transaction.write 0x48 [0x00, 0x00, 200]] ∧
    ((DAC5578.new i2c Address.PinLow).write Channel.A 200).2 =
      i2c.writeRes 0x48 [0x00, 0x00, 200] :=
  ⟨rfl, rfl⟩

/-- Claim C3, counterexample: no ResetMode carries the wire value 0b11, so
a mode value outside the enumerated 2-bit set cannot be supplied to reset
at all; in particular no InvalidResetMode error value is ever produced. -/
theorem no_reset_mode_is_three :
    ¬ ∃ m : ResetMode, m.toByte = 3 := by
  decide

/-- Claim C3, amended: for each of the three defined reset modes, reset
transmits exactly the 3-byte frame [0x70, mode value, 0x00] to the device's
own address in a single write; a mode value 0b11 cannot be supplied because
ResetMode has no variant with that value (the rejection is by the type, not
by an InvalidResetMode runtime error, which does not exist in the code). -/
theorem reset_frame_per_mode {ε : Type} (i2c : I2C ε) (a : Address) (mode : ResetMode) :
    ((DAC5578.new i2c a).reset mode).1 =
      [Transaction.write a.toByte [0x70, mode.toByte, 0x00]] ∧
    mode.toByte ≠ 3 := by
  refine ⟨rfl, ?_⟩
  cases mode <;> decide

/-- Claim C3, witness: instantiation at a concrete transport, address and
mode, with the frame evaluated. -/
theorem reset_frame_por_witness :
    ((DAC5578.new okTransport Address.PinLow).reset ResetMode.Por).1 =
      [Transaction.write Address.PinLow.toByte
        [0x70, ResetMode.Por.toByte, 0x00]] ∧
    ResetMode.Por.toByte ≠ 3 :=
  reset_frame_per_mode okTransport Address.PinLow ResetMode.Por

/-- Claim C4: for every write command family and every channel, byte 0 of
the encoded frame equals the family code bitwise-OR the channel selector,
its upper nibble recovers exactly the family code, and its lower nibble
recovers exactly the channel selector. -/
theorem byte0_nibble_roundtrip (c : WriteCommandType) (ch : Channel) (v : Nat) :
    encode_write_command c ch.toByte v =
      [c.toByte ||| ch.toByte, (u16_to_be_bytes v).1, (u16_to_be_bytes v).2] ∧
    (c.toByte ||| ch.toByte) &&& 0xF0 = c.toByte ∧
    (c.toByte ||| ch.toByte) &&& 0x0F = ch.toByte := by
  refine ⟨rfl, ?_, ?_⟩ <;> cases c <;> cases ch <;> decide

/-- Claim C5: the general-call operations target the broadcast address 0x00
regardless of the configured device address; wake_up_all sends the single
byte 0x06 and reset_all the single byte 0x09, one write each. -/
theorem general_call_targets_broadcast {ε : Type} (i2c : I2C ε) (a : Address) :
    ((DAC5578.new i2c a).wake_up_all).1 = [Transaction.write 0x00 [0x06]] ∧
    ((DAC5578.new i2c a).reset_all).1 = [Transaction.write 0x00 [0x09]] :=
  ⟨rfl, rfl⟩

/-- Claim C6: reading channel C issues exactly one write-then-read
transaction whose write portion is the single byte 0x12 (0x10 bitwise-OR 2)
with a 2-byte read buffer, and returns the big-endian u16 interpretation of
whatever 2 bytes the transport places in that buffer. -/
theorem read_channel_c {ε : Type} (i2c : I2C ε) (a : Address) (b0 b1 : Nat)
    (hb0 : b0 < 256) (hb1 : b1 < 256)
    (hresp : i2c.writeReadRes a.toByte [0x12] = Except.ok (b0, b1)) :
    ((DAC5578.new i2c a).read Channel.C).1 =
      [Transaction.writeRead a.toByte [0x12] 2] ∧
    ((DAC5578.new i2c a).read Channel.C).2 = Except.ok (b0 * 256 + b1) := by
  refine ⟨rfl, ?_⟩
  show (match i2c.writeReadRes a.toByte [0x12] with
    | Except.error e => Except.error e
    | Except.ok response => Except.ok (u16_from_be_bytes response)) =
      Except.ok (b0 * 256 + b1)
  rw [hresp]
  rfl

/-- Claim C6, witness: a transport answering with bytes 0xAB, 0xCD makes
read(C) return 0xABCD, sending exactly [0x12]. -/
theorem read_channel_c_witness :
    ((DAC5578.new respondingTransport Address.PinLow).read Channel.C).1 =
      [Transaction.writeRead Address.PinLow.toByte [0x12] 2] ∧
    ((DAC5578.new respondingTransport Address.PinLow).read Channel.C).2 =
      Except.ok (0xAB * 256 + 0xCD) :=
  read_channel_c respondingTransport Address.PinLow 0xAB 0xCD
    (by decide) (by decide) rfl

/-- Claim C7: every public bus operation issues exactly one transport
transaction (no retry), and its result is an error exactly when the
transport's answer to that transaction is that same error, verbatim,
generic over the transport's error type. -/
theorem single_transaction_error_verbatim {ε : Type} (d : DAC5578 ε)
    (ch : Channel) (data : Nat) (mode : ResetMode) (e : ε) :
    ((d.write ch data).1.length = 1 ∧
      ((d.write ch data).2 = Except.error e ↔
        d.i2c.writeRes d.address
          (encode_write_command WriteCommandType.WriteToChannel ch.toByte data) =
          Except.error e)) ∧
    ((d.update ch data).1.length = 1 ∧
      ((d.update ch data).2 = Except.error e ↔
        d.i2c.writeRes d.address
          (encode_write_command WriteCommandType.UpdateChannel ch.toByte data) =
          Except.error e)) ∧
    ((d.write_and_update ch data).1.length = 1 ∧
      ((d.write_and_update ch data).2 = Except.error e ↔
        d.i2c.writeRes d.address
          (encode_write_command WriteCommandType.WriteToChannelAndUpdate ch.toByte data) =
          Except.error e)) ∧
    ((d.write_and_update_all ch data).1.length = 1 ∧
      ((d.write_and_update_all ch data).2 = Except.error e ↔
        d.i2c.writeRes d.address
          (encode_write_command WriteCommandType.WriteToChannelAndUpdateAll ch.toByte data) =
          Except.error e)) ∧
    ((d.reset mode).1.length = 1 ∧
      ((d.reset mode).2 = Except.error e ↔
        d.i2c.writeRes d.address [0x70, mode.toByte, 0] = Except.error e)) ∧
    ((d.read ch).1.length = 1 ∧
      ((d.read ch).2 = Except.error e ↔
        d.i2c.writeReadRes d.address
          (encode_read_command ReadCommandType.ReadFromChannel ch.toByte) =
          Except.error e)) ∧
    ((d.wake_up_all).1.length = 1 ∧
      ((d.wake_up_all).2 = Except.error e ↔
        d.i2c.writeRes 0x00 [0x06] = Except.error e)) ∧
    ((d.reset_all).1.length = 1 ∧
      ((d.reset_all).2 = Except.error e ↔
        d.i2c.writeRes 0x00 [0x09] = Except.error e)) := by
  refine ⟨⟨rfl, Iff.rfl⟩, ⟨rfl, Iff.rfl⟩, ⟨rfl, Iff.rfl⟩, ⟨rfl, Iff.rfl⟩,
    ⟨rfl, Iff.rfl⟩, ⟨rfl, ?_⟩, ⟨rfl, ?_⟩, ⟨rfl, ?_⟩⟩
  · cases h : d.i2c.writeReadRes d.address
        (encode_read_command ReadCommandType.ReadFromChannel ch.toByte) <;>
      simp [DAC5578.read, h]
  · cases h : d.i2c.writeRes 0x00 [0x06] <;> simp [DAC5578.wake_up_all, h]
  · cases h : d.i2c.writeRes 0x00 [0x09] <;> simp [DAC5578.reset_all, h]

/-- Claim C8: decoding is the inverse of big-endian serialization: for
every representable 16-bit value, decoding its big-endian byte pair yields
the value back. -/
theorem decode_encode_roundtrip (v : Nat) (hv : v < 65536) :
    u16_from_be_bytes (u16_to_be_bytes v) = v := by
  simp only [u16_from_be_bytes, u16_to_be_bytes]
  omega

/-- Claim C8, witness: round trip at the concrete value 0xBEEF. -/
theorem decode_encode_roundtrip_witness :
    u16_from_be_bytes (u16_to_be_bytes 0xBEEF) = 0xBEEF :=
  decode_encode_roundtrip 0xBEEF (by decide)

/-- Claim C9, counterexample: supplying Channel.All to the WriteToChannel
operation is not rejected: the write succeeds and issues the frame
[0x0F, 0x00, 0x00]. -/
theorem all_channel_not_rejected :
    ((DAC5578.new okTransport Address.PinLow).write Channel.All 0).2 =
      Except.ok () ∧
    ((DAC5578.new okTransport Address.PinLow).write Channel.All 0).1 =
      [Transaction.write 0x48 [0x0F, 0x00, 0x00]] :=
  ⟨rfl, rfl⟩

/-- Claim C9, amended: Channel.All (selector 0xF) is accepted by every
write command family: write, update, write_and_update and
write_and_update_all each encode selector 0xF into byte 0 and issue the
single transport write; no path rejects it. -/
theorem all_channel_accepted_in_every_family {ε : Type} (d : DAC5578 ε) (v : Nat) :
    (d.write Channel.All v).1 =
      [Transaction.write d.address
        (encode_write_command WriteCommandType.WriteToChannel 0xF v)] ∧
    (d.update Channel.All v).1 =
      [Transaction.write d.address
        (encode_write_command WriteCommandType.UpdateChannel 0xF v)] ∧
    (d.write_and_update Channel.All v).1 =
      [Transaction.write d.address
        (encode_write_command WriteCommandType.WriteToChannelAndUpdate 0xF v)] ∧
    (d.write_and_update_all Channel.All v).1 =
      [Transaction.write d.address
        (encode_write_command WriteCommandType.WriteToChannelAndUpdateAll 0xF v)] :=
  ⟨rfl, rfl, rfl, rfl⟩

/-- Claim C10: for every index i with 0 ≤ i ≤ 7, converting i to a Channel
succeeds and the resulting Channel's selector value is i; the channels A
through H carry selectors 0 through 7 in order, and All carries 0xF. -/
theorem channel_index_selector_roundtrip :
    (∀ i : Nat, i ≤ 7 →
      ∃ c : Channel, Channel.fromIndex i = RustOutcome.ok c ∧ c.toByte = i) ∧
    Channel.A.toByte = 0 ∧ Channel.B.toByte = 1 ∧ Channel.C.toByte = 2 ∧
    Channel.D.toByte = 3 ∧ Channel.E.toByte = 4 ∧ Channel.F.toByte = 5 ∧
    Channel.G.toByte = 6 ∧ Channel.H.toByte = 7 ∧ Channel.All.toByte = 0xF := by
  refine ⟨?_, rfl, rfl, rfl, rfl, rfl, rfl, rfl, rfl, rfl⟩
  intro i hi
  interval_cases i <;> exact ⟨_, rfl, rfl⟩

/-- Claim C10, witness: index 5 converts to channel F whose selector is 5. -/
theorem channel_index_five_witness :
    ∃ c : Channel, Channel.fromIndex 5 = RustOutcome.ok c ∧ c.toByte = 5 :=
  channel_index_selector_roundtrip.1 5 (by decide)

end Dac5578
